import Mathlib

/-!
Shallow embedding of the regulatory-reporting core of
`src/ai-agents/agents/regulatory_agent.py` (class `RegulatoryAgent`):
the three pure tool implementations

  * `_check_jurisdiction`  (jurisdiction resolver)
  * `_generate_report`     (report synthesizer)
  * `_validate_schema`     (schema validator)

Python dictionaries are modelled as insertion-ordered association lists
with string keys; Python dynamic values are modelled by the inductive
`PyVal`.  The Python leading underscore is dropped from the method names
(Lean reserves a leading underscore for holes).  The two calls to
`datetime.now()` inside `_generate_report` are made explicit parameters
(`nowIso` for `datetime.now().isoformat()` and `nowDate` for
`datetime.now().date().isoformat()`), so that the function is pure.
-/

/-- A dynamic Python value, covering the value shapes occurring in the
trade-attribute dictionaries and report field mappings of the source:
strings, booleans, integers, floats (only the literal `0.0` occurs, so
rationals model them exactly) and `None`. -/
inductive PyVal where
  | str (s : String)
  | boolv (b : Bool)
  | int (n : Int)
  | rat (q : Rat)
  | none
deriving DecidableEq

/-- Python `str(v)`, as used inside the f-string `f"UPI-{...}"`. -/
def pyStr : PyVal → String
  | .str s => s
  | .boolv b => if b then "True" else "False"
  | .int n => toString n
  | .rat q => toString q
  | .none => "None"

/-- A Python dict with string keys: insertion-ordered association list. -/
abbrev PyDict := List (String × PyVal)

/-- Python `d.get(k)` (default `None`). -/
def dictGet (d : PyDict) (k : String) : PyVal :=
  match d.find? (fun p => p.1 == k) with
  | some p => p.2
  | Option.none => PyVal.none

/-- Python `d.get(k, default)`. -/
def dictGetD (d : PyDict) (k : String) (default : PyVal) : PyVal :=
  match d.find? (fun p => p.1 == k) with
  | some p => p.2
  | Option.none => default

/-- Python `k in d` for a dict `d`: key membership. -/
def dictHasKey (d : PyDict) (k : String) : Bool :=
  d.any (fun p => p.1 == k)

/-- Python `pat in s` for strings: substring containment at character
(code-point) granularity. -/
def strContains (s pat : String) : Bool :=
  (List.range (s.data.length + 1)).any (fun i => pat.data.isPrefixOf (s.data.drop i))

/-- Result dictionary of `RegulatoryAgent._check_jurisdiction`
(keys `applicable_regimes`, `confidence`, `reasoning`). -/
structure JurisdictionResult where
  applicable_regimes : List String
  confidence : String
  reasoning : String
deriving DecidableEq

/-- Result dictionary of `RegulatoryAgent._generate_report`
(keys `regime`, `report_id`, `fields`, `status`). -/
structure Report where
  regime : String
  report_id : String
  fields : PyDict
  status : String
deriving DecidableEq

/-- Result dictionary of `RegulatoryAgent._validate_schema`
(keys `valid`, `missing_fields`, `regime`). -/
structure ValidationResult where
  valid : Bool
  missing_fields : List String
  regime : String
deriving DecidableEq

/-- `RegulatoryAgent._check_jurisdiction` (regulatory_agent.py lines
187-214).  The four `if` blocks append to `regimes` in order; the
sequential appends are rendered as a concatenation of the four
conditional contributions. -/
def check_jurisdiction (buyer_jurisdiction seller_jurisdiction
    product_type trade_currency : String) : JurisdictionResult :=
  let regimes : List String :=
    (if buyer_jurisdiction = "US" ∨ seller_jurisdiction = "US" then
      ["CFTC_PART_43", "CFTC_PART_45"] else [])
    ++ (if strContains buyer_jurisdiction "EU" = true ∨
           strContains seller_jurisdiction "EU" = true then
      "EMIR" ::
        (if product_type = "EquityOption" ∨ product_type = "CreditDefaultSwap" then
          ["MIFIR"] else [])
      else [])
    ++ (if buyer_jurisdiction = "AU" ∨ seller_jurisdiction = "AU" then
      ["ASIC"] else [])
    ++ (if buyer_jurisdiction = "SG" ∨ seller_jurisdiction = "SG" then
      ["MAS"] else [])
  { applicable_regimes := regimes
    confidence := "high"
    reasoning := "Based on jurisdictions " ++ buyer_jurisdiction ++ "/"
      ++ seller_jurisdiction }

/-- `RegulatoryAgent._generate_report` (regulatory_agent.py lines
216-254).  `nowIso` stands for `datetime.now().isoformat()` and
`nowDate` for `datetime.now().date().isoformat()`; Python `uti[:8]`
is `String.take uti 8` (both return the whole string when it is
shorter than 8 characters). -/
def generate_report (regime : String) (trade_data : PyDict) (uti : String)
    (nowIso nowDate : String) : Report :=
  let fields : PyDict :=
    if regime = "CFTC_PART_43" then
      [("UTI", .str uti),
       ("ExecutionTimestamp", .str nowIso),
       ("AssetClass", dictGet trade_data "asset_class"),
       ("Price", dictGetD trade_data "price" (.str "N/A")),
       ("Notional", dictGet trade_data "notional"),
       ("ClearedIndicator", .boolv false),
       ("BlockTradeIndicator", .boolv false)]
    else if regime = "CFTC_PART_45" then
      [("UTI", .str uti),
       ("UPI", .str ("UPI-" ++ pyStr (dictGet trade_data "product_type"))),
       ("ReportingCounterpartyLEI", dictGetD trade_data "buyer_lei" (.str "")),
       ("OtherCounterpartyLEI", dictGetD trade_data "seller_lei" (.str "")),
       ("EffectiveDate", .str nowDate),
       ("CollateralizationType", .str "Uncollateralized")]
    else if regime = "EMIR" then
      [("UTI", .str uti),
       ("LEI_1", dictGetD trade_data "buyer_lei" (.str "")),
       ("LEI_2", dictGetD trade_data "seller_lei" (.str "")),
       ("TradeDate", .str nowDate),
       ("Notional", dictGet trade_data "notional"),
       ("Valuation", .rat 0),
       ("CollateralPosted", .rat 0)]
    else []
  { regime := regime
    report_id := "RPT-" ++ regime ++ "-" ++ uti.take 8
    fields := fields
    status := "generated" }

/-- The static `required_fields` table of
`RegulatoryAgent._validate_schema` (regulatory_agent.py lines 257-261),
with Python `required_fields.get(regime, [])` folded in. -/
def requiredFields (regime : String) : List String :=
  if regime = "CFTC_PART_43" then ["UTI", "ExecutionTimestamp", "AssetClass", "Notional"]
  else if regime = "CFTC_PART_45" then ["UTI", "UPI", "ReportingCounterpartyLEI"]
  else if regime = "EMIR" then ["UTI", "LEI_1", "LEI_2"]
  else []

/-- `RegulatoryAgent._validate_schema` (regulatory_agent.py lines
256-267).  The Python argument is the report dictionary; the
`report_data.get("fields", {})` access is the `fields` projection of
the `Report` structure (reports always carry that key). -/
def validate_schema (regime : String) (report_data : Report) : ValidationResult :=
  let missing : List String :=
    (requiredFields regime).filter (fun f => !(dictHasKey report_data.fields f))
  { valid := missing.length == 0
    missing_fields := missing
    regime := regime }

/-!
Except-monad variants of the three operations.  A Python `raise` would be
modelled as `Except.error`; the three methods contain no `raise` and use
only total primitives (slicing `uti[:8]`, `dict.get` with and without a
default, `in` on strings/lists/dicts, f-string formatting), so the
monadic code below has no `Except.error` anywhere and every run returns
`Except.ok`.
-/

/-- `RegulatoryAgent._check_jurisdiction` run in the `Except` monad. -/
def check_jurisdictionE (buyer_jurisdiction seller_jurisdiction
    product_type trade_currency : String) : Except String JurisdictionResult := do
  let mut regimes : List String := []
  if buyer_jurisdiction = "US" ∨ seller_jurisdiction = "US" then
    regimes := regimes ++ ["CFTC_PART_43", "CFTC_PART_45"]
  if strContains buyer_jurisdiction "EU" = true ∨
      strContains seller_jurisdiction "EU" = true then
    regimes := regimes ++ ["EMIR"]
    if product_type = "EquityOption" ∨ product_type = "CreditDefaultSwap" then
      regimes := regimes ++ ["MIFIR"]
  if buyer_jurisdiction = "AU" ∨ seller_jurisdiction = "AU" then
    regimes := regimes ++ ["ASIC"]
  if buyer_jurisdiction = "SG" ∨ seller_jurisdiction = "SG" then
    regimes := regimes ++ ["MAS"]
  pure { applicable_regimes := regimes
         confidence := "high"
         reasoning := "Based on jurisdictions " ++ buyer_jurisdiction ++ "/"
           ++ seller_jurisdiction }

/-- `RegulatoryAgent._generate_report` run in the `Except` monad. -/
def generate_reportE (regime : String) (trade_data : PyDict) (uti : String)
    (nowIso nowDate : String) : Except String Report := do
  let mut fields : PyDict := []
  if regime = "CFTC_PART_43" then
    fields := [("UTI", .str uti),
               ("ExecutionTimestamp", .str nowIso),
               ("AssetClass", dictGet trade_data "asset_class"),
               ("Price", dictGetD trade_data "price" (.str "N/A")),
               ("Notional", dictGet trade_data "notional"),
               ("ClearedIndicator", .boolv false),
               ("BlockTradeIndicator", .boolv false)]
  else if regime = "CFTC_PART_45" then
    fields := [("UTI", .str uti),
               ("UPI", .str ("UPI-" ++ pyStr (dictGet trade_data "product_type"))),
               ("ReportingCounterpartyLEI", dictGetD trade_data "buyer_lei" (.str "")),
               ("OtherCounterpartyLEI", dictGetD trade_data "seller_lei" (.str "")),
               ("EffectiveDate", .str nowDate),
               ("CollateralizationType", .str "Uncollateralized")]
  else if regime = "EMIR" then
    fields := [("UTI", .str uti),
               ("LEI_1", dictGetD trade_data "buyer_lei" (.str "")),
               ("LEI_2", dictGetD trade_data "seller_lei" (.str "")),
               ("TradeDate", .str nowDate),
               ("Notional", dictGet trade_data "notional"),
               ("Valuation", .rat 0),
               ("CollateralPosted", .rat 0)]
  pure { regime := regime
         report_id := "RPT-" ++ regime ++ "-" ++ uti.take 8
         fields := fields
         status := "generated" }

/-- `RegulatoryAgent._validate_schema` run in the `Except` monad. -/
def validate_schemaE (regime : String) (report_data : Report) :
    Except String ValidationResult := do
  let missing : List String :=
    (requiredFields regime).filter (fun f => !(dictHasKey report_data.fields f))
  pure { valid := missing.length == 0
         missing_fields := missing
         regime := regime }

/-- C1: for every regime identifier (known or not), trade-attribute
mapping and UTI string, validating the report synthesized by
`generate_report` for that same regime yields `valid = true` and an
empty missing-fields list (round trip: synthesize then validate). -/
theorem validate_schema_roundtrip (regime : String) (trade : PyDict)
    (uti nowIso nowDate : String) :
    validate_schema regime (generate_report regime trade uti nowIso nowDate)
      = { valid := true, missing_fields := [], regime := regime } := by
  simp only [validate_schema, generate_report, requiredFields]
  split_ifs <;> simp [dictHasKey]

/-- C2: the jurisdiction resolver's output contains "EMIR" exactly when
"EU" occurs as a substring of the buyer or the seller jurisdiction
code, and contains "MIFIR" exactly when that substring condition holds
and the product type is "EquityOption" or "CreditDefaultSwap". -/
theorem check_jurisdiction_eu_regimes (b s p c : String) :
    (("EMIR" ∈ (check_jurisdiction b s p c).applicable_regimes) ↔
      (strContains b "EU" = true ∨ strContains s "EU" = true)) ∧
    (("MIFIR" ∈ (check_jurisdiction b s p c).applicable_regimes) ↔
      ((strContains b "EU" = true ∨ strContains s "EU" = true) ∧
        (p = "EquityOption" ∨ p = "CreditDefaultSwap"))) := by
  simp only [check_jurisdiction]
  split_ifs <;> simp_all [List.mem_append]

/-- C3: for buyer jurisdiction "US", seller jurisdiction "EU_GB" and
product type "CreditDefaultSwap", the resolver returns exactly the four
regimes CFTC_PART_43, CFTC_PART_45, EMIR and MIFIR, in that order. -/
theorem check_jurisdiction_us_eugb_cds :
    (check_jurisdiction "US" "EU_GB" "CreditDefaultSwap" "").applicable_regimes
      = ["CFTC_PART_43", "CFTC_PART_45", "EMIR", "MIFIR"] := rfl

/-- C4: for every buyer jurisdiction, seller jurisdiction, product type
and currency, the list of applicable regimes returned by the resolver
contains no duplicate entries. -/
theorem check_jurisdiction_nodup (b s p c : String) :
    (check_jurisdiction b s p c).applicable_regimes.Nodup := by
  simp only [check_jurisdiction]
  split_ifs <;> decide

/-- C5: for every regime identifier other than CFTC_PART_43,
CFTC_PART_45 and EMIR, and every trade-attribute mapping and UTI, the
synthesizer returns a report with an empty field mapping (and, per C8,
raises no error). -/
theorem generate_report_unknown_regime_empty_fields (regime : String)
    (trade : PyDict) (uti nowIso nowDate : String)
    (h1 : regime ≠ "CFTC_PART_43") (h2 : regime ≠ "CFTC_PART_45")
    (h3 : regime ≠ "EMIR") :
    (generate_report regime trade uti nowIso nowDate).fields = [] := by
  simp [generate_report, h1, h2, h3]

/-- C5 witness: the unrecognized regime "MIFIR" yields an empty field
mapping. -/
theorem generate_report_unknown_regime_empty_fields_witness :
    (generate_report "MIFIR" [] "UTI-123456789" "T" "D").fields = [] :=
  generate_report_unknown_regime_empty_fields "MIFIR" [] "UTI-123456789" "T" "D"
    (by decide) (by decide) (by decide)

/-- C6: for every regime identifier, trade-attribute mapping and UTI,
the synthesized report's identifier is "RPT-" ++ regime ++ "-" ++ the
first 8 characters of the UTI (the whole UTI when shorter, matching
Python slicing). -/
theorem generate_report_report_id_format (regime : String) (trade : PyDict)
    (uti nowIso nowDate : String) :
    (generate_report regime trade uti nowIso nowDate).report_id
      = "RPT-" ++ regime ++ "-" ++ uti.take 8 := rfl

/-- C7: for every known regime (CFTC_PART_43, CFTC_PART_45 or EMIR) and
every trade-attribute mapping and UTI, the synthesized report's field
mapping maps "UTI" to the input UTI. -/
theorem generate_report_uti_field (regime : String) (trade : PyDict)
    (uti nowIso nowDate : String)
    (h : regime = "CFTC_PART_43" ∨ regime = "CFTC_PART_45" ∨ regime = "EMIR") :
    dictGet (generate_report regime trade uti nowIso nowDate).fields "UTI"
      = PyVal.str uti := by
  rcases h with h | h | h <;> subst h <;> simp [generate_report, dictGet]

/-- C7 witness: the EMIR report for UTI "UTI-123456789" carries that UTI. -/
theorem generate_report_uti_field_witness :
    dictGet (generate_report "EMIR" [] "UTI-123456789" "T" "D").fields "UTI"
      = PyVal.str "UTI-123456789" :=
  generate_report_uti_field "EMIR" [] "UTI-123456789" "T" "D" (by simp)

/-- C8: none of the three core operations raises: run in the `Except`
monad (where a Python `raise` would surface as `Except.error`), each
returns `Except.ok` of its pure result on every input. -/
theorem core_ops_never_raise (b s p c regime : String) (trade : PyDict)
    (uti nowIso nowDate : String) (rep : Report) :
    check_jurisdictionE b s p c = Except.ok (check_jurisdiction b s p c) ∧
    generate_reportE regime trade uti nowIso nowDate
      = Except.ok (generate_report regime trade uti nowIso nowDate) ∧
    validate_schemaE regime rep = Except.ok (validate_schema regime rep) := by
  refine ⟨?_, ?_, ?_⟩
  · simp only [check_jurisdictionE, check_jurisdiction]
    split_ifs <;> rfl
  · simp only [generate_reportE, generate_report]
    split_ifs <;> rfl
  · rfl

/-- C9: the synthesizer is deterministic: two invocations with the same
regime, trade attributes, UTI and the same embedded current-time values
produce identical reports (the timestamps are the only inputs beyond
the arguments; there is no hidden state). -/
theorem generate_report_deterministic (regime : String) (trade : PyDict)
    (uti nowIso1 nowIso2 nowDate1 nowDate2 : String)
    (hIso : nowIso1 = nowIso2) (hDate : nowDate1 = nowDate2) :
    generate_report regime trade uti nowIso1 nowDate1
      = generate_report regime trade uti nowIso2 nowDate2 := by
  subst hIso
  subst hDate
  rfl

/-- C9 witness: two EMIR invocations at the same timestamp agree. -/
theorem generate_report_deterministic_witness :
    generate_report "EMIR" [] "UTI-123456789" "T" "D"
      = generate_report "EMIR" [] "UTI-123456789" "T" "D" :=
  generate_report_deterministic "EMIR" [] "UTI-123456789" "T" "T" "D" "D" rfl rfl

/-- C10: for every regime identifier (including unrecognized ones),
trade-attribute mapping and UTI, the synthesized report has status
"generated" and carries the input regime identifier; the status never
signals failure or an unknown regime. -/
theorem generate_report_status_and_regime (regime : String) (trade : PyDict)
    (uti nowIso nowDate : String) :
    (generate_report regime trade uti nowIso nowDate).status = "generated" ∧
    (generate_report regime trade uti nowIso nowDate).regime = regime :=
  ⟨rfl, rfl⟩
